import Mathlib

/-!
Shallow embedding of the storage gateway's authorization-and-signing
pipeline (`src/app/mod.rs`): the `Object`, `Set` and `Sign` resources,
their helper functions `valid_set_id`, `parse_action`, `s3_object`, and
the referer validators.  External collaborators (the policy client, the
audience estimator, the S3 clients) are modelled as function-valued
fields of the resource structures, mirroring the fields of the Rust
structs.  Each handler returns, besides its HTTP-level outcome, the list
of observable calls it made (presigning, signed-request building, policy
authorization), in the order the Rust code performs them.
-/

namespace App

/-- An HTTP-level error as produced by `Error::builder().kind(k, t).status(s).detail(d)`. -/
structure HError where
  kind : String
  title : String
  status : Nat
  detail : String
deriving DecidableEq, Repr

/-- Outcome of a handler: a `303` redirect carrying a presigned URL in its
`location` header (`redirect`), a `200` JSON body `{"uri": ...}` (`signed`),
or an error response. -/
inductive HandlerResult where
  | redirect (uri : String)
  | signed (uri : String)
  | err (e : HError)
deriving DecidableEq, Repr

/-- Observable external calls made by a handler, in program order.
`authorize` records the policy client call together with the result it
completed with (`allowed = true` for an allow). -/
inductive Event where
  | presign (method bucket object : String)
  | buildSigned (method bucket object : String)
  | authorize (audience sub : String) (zobj : List String) (zact : String) (allowed : Bool)
deriving DecidableEq, Repr

/-- An S3 backend client: `presigned` models `s3::Client::presigned_url`
(a synchronous computation returning a URL or an error message) and
`buildSigned` models `util::S3SignedRequestBuilder::{new,method,bucket,object,add_header,build}`
applied to this client (returning the signed URI or an error). -/
structure S3Client where
  presigned : String → String → String → Except String String
  buildSigned : String → String → String → List (String × String) → Except HError String

/-- Per-audience tenant settings.  Modelled from the spec: the concrete
`AudienceSettings` type and its `valid_referer` method live in a
configuration module that is not part of the sources; §4.4 specifies that
an empty/unset allowed-referer list means "no restriction" and otherwise
the (possibly absent) referer must match one of the allowed entries. -/
structure AudienceSettings where
  allowedReferers : List String
deriving DecidableEq, Repr

/-- Modelled from the spec: `AudienceSettings::valid_referer` (§4.4). -/
def AudienceSettings.valid_referer (a : AudienceSettings) (referer : Option String) : Bool :=
  a.allowedReferers.isEmpty ||
    match referer with
    | none => false
    | some r => a.allowedReferers.contains r

/-- `valid_set_id` (mod.rs line 363): `set_id.parse::<u128>().is_ok()`.
The parse is modelled by `parseU128` below. -/
def U128_MAX : Nat := 2 ^ 128 - 1

/-- One step of Rust's `from_str_radix` digit loop for an unsigned target:
each character must be an ASCII decimal digit and the accumulator must
never exceed `u128::MAX` (checked multiply and add). -/
def parseU128Digits : List Char → Nat → Option Nat
  | [], acc => some acc
  | c :: cs, acc =>
    if c.isDigit then
      let acc2 := acc * 10 + (c.toNat - 48)
      if acc2 ≤ U128_MAX then parseU128Digits cs acc2 else none
    else none

/-- Rust's `str::parse::<u128>()`: empty input fails, an optional leading
`'+'` is allowed (a bare `"+"` fails), then the checked digit loop runs. -/
def parseU128 (s : String) : Option Nat :=
  match s.data with
  | [] => none
  | c :: cs =>
    if c = '+' then (if cs.isEmpty then none else parseU128Digits cs 0)
    else parseU128Digits (c :: cs) 0

/-- mod.rs lines 362-365. -/
def valid_set_id (set_id : String) : Bool :=
  (parseU128 set_id).isSome

/-- mod.rs lines 340-348. -/
def parse_action (method : String) : Except String String :=
  match method with
  | "HEAD" => Except.ok "read"
  | "GET" => Except.ok "read"
  | "PUT" => Except.ok "update"
  | "DELETE" => Except.ok "delete"
  | _ => Except.error ("invalid method = " ++ method)

/-- mod.rs lines 350-352: the composite storage key `"{set}.{object}"`. -/
def s3_object (set object : String) : String :=
  set ++ "." ++ object

/-- Error builder for the Object resource (mod.rs line 91). -/
def objectError (status : Nat) (detail : String) : HError :=
  ⟨"object_error", "Error reading an object using Object API", status, detail⟩

/-- Error builder for the Set resource (mod.rs line 151). -/
def setError (status : Nat) (detail : String) : HError :=
  ⟨"set_error", "Error reading an object using Set API", status, detail⟩

/-- Error builder for the Sign resource (mod.rs line 244). -/
def signError (status : Nat) (detail : String) : HError :=
  ⟨"sign_error", "Error signing a request", status, detail⟩

/-- The `Object` resource struct (mod.rs lines 19-25).  `authz` is the
policy client map (already applied to the awaited result of the
authorization future), `aud_estm` the audience estimator, `s3` the map of
registered backend clients. -/
structure Object where
  authz : String → String → List String → String → Except String Unit
  authz_wo : Bool
  aud_estm : String → Except HError String
  s3 : String → Option S3Client

/-- The `Set` resource struct (mod.rs lines 27-34). -/
structure Set where
  authz : String → String → List String → String → Except String Unit
  authz_wo : Bool
  aud_estm : String → Except HError String
  s3 : String → Option S3Client
  audiences_settings : List (String × AudienceSettings)

/-- The `Sign` resource struct (mod.rs lines 36-43): no `authz_wo` bypass
field, and its handler takes a mandatory subject. -/
structure Sign where
  application_id : String
  authz : String → String → List String → String → Except String Unit
  aud_estm : String → Except HError String
  s3 : String → Option S3Client
  audiences_settings : List (String × AudienceSettings)

/-- The JSON payload of the Sign endpoint (mod.rs lines 45-52). -/
structure SignPayload where
  bucket : String
  set : Option String
  object : String
  method : String
  headers : List (String × String)

/-- `Object::read_authz` (mod.rs lines 115-140).  Faithful to the Rust
control flow: `resp` — including the call to `presigned_url` — is
computed eagerly when the future is built, before the audience is
estimated and before the policy client is invoked; the authorization
result only decides whether `resp` or an error is emitted. -/
def Object.read_authz (o : Object) (c : S3Client) (bucket object sub : String) :
    List Event × HandlerResult :=
  let zobj := ["buckets", bucket, "objects", object]
  let zact := "read"
  let resp : HandlerResult :=
    match c.presigned "GET" bucket object with
    | Except.ok uri => HandlerResult.redirect uri
    | Except.error e => HandlerResult.err (objectError 422 e)
  let ev0 := [Event.presign "GET" bucket object]
  match o.aud_estm bucket with
  | Except.error err => (ev0, HandlerResult.err err)
  | Except.ok audience =>
    match o.authz audience sub zobj zact with
    | Except.error e =>
      (ev0 ++ [Event.authorize audience sub zobj zact false],
       HandlerResult.err (objectError 403 e))
    | Except.ok _ =>
      (ev0 ++ [Event.authorize audience sub zobj zact true], resp)

/-- `Object::read_ns` (mod.rs lines 89-113): resolve the backend (404 on a
missing alias), then either bypass authorization entirely (`authz_wo`) or
require a subject (403 without one) and run `read_authz`. -/
def Object.read_ns (o : Object) (back bucket object : String) (maybe_sub : Option String) :
    List Event × HandlerResult :=
  match o.s3 back with
  | none => ([], HandlerResult.err (objectError 404 ("Backend '" ++ back ++ "' is not found")))
  | some c =>
    match o.authz_wo with
    | false =>
      match maybe_sub with
      | some sub => o.read_authz c bucket object sub
      | none => ([], HandlerResult.err (objectError 403 "missing an access token"))
    | true =>
      ([Event.presign "GET" bucket object],
        match c.presigned "GET" bucket object with
        | Except.ok uri => HandlerResult.redirect uri
        | Except.error e => HandlerResult.err (objectError 422 e))

/-- `Set::valid_referer` (mod.rs lines 210-231). -/
def Set.valid_referer (st : Set) (bucket : String) (referer : Option String) :
    Except HError Unit :=
  match st.aud_estm bucket with
  | Except.ok aud =>
    match st.audiences_settings.lookup aud with
    | some aud_settings =>
      if !(aud_settings.valid_referer referer) then
        Except.error (setError 403 "Invalid request")
      else Except.ok ()
    | none =>
      Except.error (setError 404
        ("Audience settings for bucket '" ++ bucket ++ "' not found"))
  | Except.error err =>
    Except.error (setError 404
      ("Audience estimate for bucket '" ++ bucket ++ "' not found, err = " ++ err.detail))

/-- `Set::read_authz` (mod.rs lines 183-208).  As in `Object.read_authz`,
the presigned URL for the composite key is built eagerly, before the
policy client runs. -/
def Set.read_authz (st : Set) (c : S3Client) (bucket set object sub : String) :
    List Event × HandlerResult :=
  let zobj := ["buckets", bucket, "sets", set]
  let zact := "read"
  let resp : HandlerResult :=
    match c.presigned "GET" bucket (s3_object set object) with
    | Except.ok uri => HandlerResult.redirect uri
    | Except.error e => HandlerResult.err (setError 422 e)
  let ev0 := [Event.presign "GET" bucket (s3_object set object)]
  match st.aud_estm bucket with
  | Except.error err => (ev0, HandlerResult.err err)
  | Except.ok audience =>
    match st.authz audience sub zobj zact with
    | Except.error e =>
      (ev0 ++ [Event.authorize audience sub zobj zact false],
       HandlerResult.err (setError 403 e))
    | Except.ok _ =>
      (ev0 ++ [Event.authorize audience sub zobj zact true], resp)

/-- `Set::read_ns` (mod.rs lines 149-181): backend resolution, then the
set-id shape check, then the referer check, then bypass / subject /
authorization as in `Object.read_ns` but with the composite key. -/
def Set.read_ns (st : Set) (back bucket set object : String) (maybe_sub : Option String)
    (referer : Option String) : List Event × HandlerResult :=
  match st.s3 back with
  | none => ([], HandlerResult.err (setError 404 ("Backend '" ++ back ++ "' is not found")))
  | some c =>
    if !valid_set_id set then
      ([], HandlerResult.err (setError 403 "Invalid set id"))
    else
      match st.valid_referer bucket referer with
      | Except.error e => ([], HandlerResult.err e)
      | Except.ok _ =>
        match st.authz_wo with
        | false =>
          match maybe_sub with
          | some sub => st.read_authz c bucket set object sub
          | none => ([], HandlerResult.err (setError 403 "missing an access token"))
        | true =>
          ([Event.presign "GET" bucket (s3_object set object)],
            match c.presigned "GET" bucket (s3_object set object) with
            | Except.ok uri => HandlerResult.redirect uri
            | Except.error e => HandlerResult.err (setError 422 e))

/-- `Sign::valid_referer` (mod.rs lines 304-325): identical to
`Set.valid_referer` up to the error kind. -/
def Sign.valid_referer (sg : Sign) (bucket : String) (referer : Option String) :
    Except HError Unit :=
  match sg.aud_estm bucket with
  | Except.ok aud =>
    match sg.audiences_settings.lookup aud with
    | some aud_settings =>
      if !(aud_settings.valid_referer referer) then
        Except.error (signError 403 "Invalid request")
      else Except.ok ()
    | none =>
      Except.error (signError 404
        ("Audience settings for bucket '" ++ bucket ++ "' not found"))
  | Except.error err =>
    Except.error (signError 404
      ("Audience estimate for bucket '" ++ bucket ++ "' not found, err = " ++ err.detail))

/-- The effective storage key signed by the Sign endpoint (mod.rs lines
261-270): the composite key when a set is supplied, the bare object
otherwise. -/
def signObjectKey (body : SignPayload) : String :=
  match body.set with
  | some set => s3_object set body.object
  | none => body.object

/-- The authorization resource path used by the Sign endpoint (mod.rs
lines 261-270). -/
def signZobj (body : SignPayload) : List String :=
  match body.set with
  | some set => ["buckets", body.bucket, "sets", set]
  | none => ["buckets", body.bucket, "objects", body.object]

/-- `Sign::sign_ns` (mod.rs lines 241-302): backend resolution, set-id
shape check (when a set is supplied), referer check, method parsing, then
the signed request is BUILT, then the audience is estimated and the
policy client invoked; only an allow releases the already-built URI as
the `200` response. -/
def Sign.sign_ns (sg : Sign) (back : String) (body : SignPayload) (sub : String)
    (referer : Option String) : List Event × HandlerResult :=
  match sg.s3 back with
  | none => ([], HandlerResult.err (signError 404 ("Backend '" ++ back ++ "' is not found")))
  | some c =>
    if body.set.map (fun s => !valid_set_id s) = some true then
      ([], HandlerResult.err (signError 403 "Invalid set id"))
    else
      match sg.valid_referer body.bucket referer with
      | Except.error e => ([], HandlerResult.err e)
      | Except.ok _ =>
        let object := signObjectKey body
        let zobj := signZobj body
        match parse_action body.method with
        | Except.error e => ([], HandlerResult.err (signError 403 e))
        | Except.ok zact =>
          let ev0 := [Event.buildSigned body.method body.bucket object]
          match c.buildSigned body.method body.bucket object body.headers with
          | Except.error e => (ev0, HandlerResult.err e)
          | Except.ok uri =>
            match sg.aud_estm body.bucket with
            | Except.error err => (ev0, HandlerResult.err err)
            | Except.ok audience =>
              match sg.authz audience sub zobj zact with
              | Except.error e =>
                (ev0 ++ [Event.authorize audience sub zobj zact false],
                 HandlerResult.err (signError 403 e))
              | Except.ok _ =>
                (ev0 ++ [Event.authorize audience sub zobj zact true],
                 HandlerResult.signed uri)

/-- The default backend alias used by the wrapper routes without a
`:back` segment (`util::S3_DEFAULT_CLIENT`; the `util` module is outside
the provided sources, the constant's value is opaque here). -/
def S3_DEFAULT_CLIENT : String := "default"

/-- `Object::read` (mod.rs lines 84-87). -/
def Object.read (o : Object) (bucket object : String) (maybe_sub : Option String) :
    List Event × HandlerResult :=
  o.read_ns S3_DEFAULT_CLIENT bucket object maybe_sub

/-- `Set::read` (mod.rs lines 144-147). -/
def Set.read (st : Set) (bucket set object : String) (maybe_sub : Option String)
    (referer : Option String) : List Event × HandlerResult :=
  st.read_ns S3_DEFAULT_CLIENT bucket set object maybe_sub referer

/-- `Sign::sign` (mod.rs lines 235-239). -/
def Sign.sign (sg : Sign) (body : SignPayload) (sub : String) (referer : Option String) :
    List Event × HandlerResult :=
  sg.sign_ns S3_DEFAULT_CLIENT body sub referer

/-- Whether an event is a policy-client invocation. -/
def Event.isAuthorize : Event → Bool
  | Event.authorize _ _ _ _ _ => true
  | _ => false

/-- The temporal property claimed for the read flows: scanning the event
trace left to right, no presigned URL is constructed before the policy
client has completed with an allow. -/
def presignOnlyAfterAllow : List Event → Bool
  | [] => true
  | Event.authorize _ _ _ _ true :: _ => true
  | Event.presign _ _ _ :: _ => false
  | _ :: rest => presignOnlyAfterAllow rest

/-- A concrete S3 client whose presigning and request building always
succeed, used to instantiate the theorems below on closed inputs. -/
def okClient : S3Client :=
  ⟨fun _ _ _ => Except.ok "https://presigned.example/data",
   fun _ _ _ _ => Except.ok "https://signed.example/data"⟩

/-- A policy client that allows every request. -/
def allowPolicy : String → String → List String → String → Except String Unit :=
  fun _ _ _ _ => Except.ok ()

/-- A policy client that denies every request. -/
def denyPolicy : String → String → List String → String → Except String Unit :=
  fun _ _ _ _ => Except.error "Access denied"

/-- An audience estimator that always resolves to audience `aud1`. -/
def estmOk : String → Except HError String :=
  fun _ => Except.ok "aud1"

/-- An audience estimator with no matching rule for any bucket. -/
def estmFail : String → Except HError String :=
  fun _ => Except.error ⟨"estm_error", "audience estimator", 404, "no rule"⟩

/-- Tenant settings for `aud1` with an empty allow-list (no restriction). -/
def settings1 : List (String × AudienceSettings) := [("aud1", ⟨[]⟩)]

/-- Object resource: bypass off, every backend registered, allow-all policy. -/
def allowObj : Object := ⟨allowPolicy, false, estmOk, fun _ => some okClient⟩

/-- Set resource: bypass off, every backend registered, allow-all policy. -/
def allowSet : Set := ⟨allowPolicy, false, estmOk, fun _ => some okClient, settings1⟩

/-- Sign resource with an allow-all policy. -/
def allowSign : Sign := ⟨"app", allowPolicy, estmOk, fun _ => some okClient, settings1⟩

/-- Sign resource with a deny-all policy. -/
def denySign : Sign := ⟨"app", denyPolicy, estmOk, fun _ => some okClient, settings1⟩

/-- Object resource with no registered backends. -/
def noneObj : Object := ⟨allowPolicy, false, estmOk, fun _ => none⟩

/-- Set resource with no registered backends. -/
def noneSet : Set := ⟨allowPolicy, false, estmOk, fun _ => none, []⟩

/-- Sign resource with no registered backends. -/
def noneSign : Sign := ⟨"app", allowPolicy, estmOk, fun _ => none, []⟩

/-- Object resource with the bypass flag set and a deny-all policy. -/
def bypassObj : Object := ⟨denyPolicy, true, estmOk, fun _ => some okClient⟩

/-- Set resource with the bypass flag set and a deny-all policy. -/
def bypassSet : Set := ⟨denyPolicy, true, estmOk, fun _ => some okClient, settings1⟩

/-- Set resource whose audience estimation fails for every bucket. -/
def estmFailSet : Set := ⟨allowPolicy, false, estmFail, fun _ => some okClient, []⟩

/-- Sign resource whose audience estimation fails for every bucket. -/
def estmFailSign : Sign := ⟨"app", allowPolicy, estmFail, fun _ => some okClient, []⟩

/-- A Sign payload without a set: a plain PUT of object `o` in bucket `b`. -/
def signBody : SignPayload := ⟨"b", none, "o", "PUT", []⟩

/-- Set resource with the bypass flag set, a deny-all policy, and a
restrictive referer allow-list for audience `aud1`. -/
def refSet : Set :=
  ⟨denyPolicy, true, estmOk, fun _ => some okClient, [("aud1", ⟨["https://a.example"]⟩)]⟩

/-- The base-10 value of a digit string, folded left over an accumulator
exactly as the parse loop does. -/
def valAcc (cs : List Char) (acc : Nat) : Nat :=
  cs.foldl (fun a c => a * 10 + (c.toNat - 48)) acc

/-- Strip one optional leading `'+'`. -/
def stripPlus (cs : List Char) : List Char :=
  match cs with
  | c :: r => if c = '+' then r else c :: r
  | [] => []

/-- Specification-side characterisation of `valid_set_id` (the amended
claim C3): after an optional leading `'+'`, the string is one or more
ASCII decimal digits and its value fits in `u128`. -/
def validSetIdSpec (s : String) : Bool :=
  let ds := stripPlus s.data
  !ds.isEmpty && ds.all Char.isDigit && decide (valAcc ds 0 ≤ U128_MAX)

theorem valAcc_nil (acc : Nat) : valAcc [] acc = acc := rfl

theorem valAcc_cons (c : Char) (cs : List Char) (acc : Nat) :
    valAcc (c :: cs) acc = valAcc cs (acc * 10 + (c.toNat - 48)) := rfl

theorem le_valAcc (cs : List Char) (acc : Nat) : acc ≤ valAcc cs acc := by
  induction cs generalizing acc with
  | nil => simp [valAcc]
  | cons c cs ih =>
    rw [valAcc_cons]
    exact le_trans (by omega) (ih (acc * 10 + (c.toNat - 48)))

theorem parseU128Digits_isSome (cs : List Char) (acc : Nat) (h : acc ≤ U128_MAX) :
    (parseU128Digits cs acc).isSome =
      (cs.all Char.isDigit && decide (valAcc cs acc ≤ U128_MAX)) := by
  induction cs generalizing acc with
  | nil => simp [parseU128Digits, valAcc_nil, h]
  | cons c cs ih =>
    rw [parseU128Digits, valAcc_cons]
    by_cases hd : c.isDigit
    · simp only [hd, if_true]
      by_cases hle : acc * 10 + (c.toNat - 48) ≤ U128_MAX
      · simp only [hle, if_true, ih _ hle, List.all_cons, hd, Bool.true_and]
      · have : ¬ valAcc cs (acc * 10 + (c.toNat - 48)) ≤ U128_MAX :=
          fun hc => hle (le_trans (le_valAcc _ _) hc)
        simp [hle, this]
    · simp [hd]

theorem strAppend_assoc (a b c : String) : a ++ b ++ c = a ++ (b ++ c) := by
  apply String.ext
  simp [String.data_append, List.append_assoc]

/-- C3 counterexample: the string `"+1"` contains the non-digit character
`'+'` yet `valid_set_id` accepts it (Rust's `u128` parse allows an
optional leading plus sign), refuting the claim that any string
containing a non-digit character is rejected. -/
theorem c3_counterexample :
    valid_set_id "+1" = true ∧ '+' ∈ "+1".data ∧ Char.isDigit '+' = false := by
  decide

/-- C3 (amended): `valid_set_id s` is true iff `s` consists of an optional
leading `'+'` followed by one or more ASCII decimal digits whose base-10
value is at most `2^128 - 1` (Rust `u128` parsing: plus sign accepted,
overflow rejected). -/
theorem c3_valid_set_id (s : String) : valid_set_id s = validSetIdSpec s := by
  unfold valid_set_id validSetIdSpec parseU128 stripPlus
  cases hcs : s.data with
  | nil => simp
  | cons c cs =>
    by_cases hp : c = '+'
    · simp only [hp, if_true]
      cases cs with
      | nil => simp [parseU128Digits]
      | cons d ds =>
        simp only [List.isEmpty_cons, Bool.false_eq_true, if_false, Bool.not_false, Bool.true_and]
        rw [parseU128Digits_isSome (d :: ds) 0 (Nat.zero_le _)]
    · simp only [hp, if_false]
      rw [parseU128Digits_isSome (c :: cs) 0 (Nat.zero_le _)]
      simp [Bool.and_assoc]

/-- C1 counterexample: on an Object read with the bypass flag off, a
subject present and an allowing policy, the presigned URL is constructed
(trace position 0) strictly before the policy client call completes
(trace position 1): `read_authz` computes `presigned_url` eagerly when
the future is built, so the claimed ordering is violated even on an
allow. -/
theorem c1_counterexample :
    allowObj.authz_wo = false ∧
    presignOnlyAfterAllow (allowObj.read_ns "main" "b" "o" (some "u")).fst = false ∧
    (allowObj.read_ns "main" "b" "o" (some "u")).fst
      = [Event.presign "GET" "b" "o",
         Event.authorize "aud1" "u" ["buckets", "b", "objects", "o"] "read" true] := by
  decide

/-- C1 (amended): on Object-path and Set-path reads with the bypass flag
off and a subject present, the presigned URL is constructed before the
policy client call, but the response carrying it (the `303` redirect) is
only emitted after the authorization call has completed with an allow:
whenever the handler returns a redirect, the policy client was invoked
and returned ok. -/
theorem c1_redirect_only_after_allow (o : Object) (st : Set)
    (back bucket set object sub uri : String) (referer : Option String)
    (ho : o.authz_wo = false) (hs : st.authz_wo = false) :
    ((o.read_ns back bucket object (some sub)).snd = HandlerResult.redirect uri →
      ∃ aud, o.aud_estm bucket = Except.ok aud ∧
        o.authz aud sub ["buckets", bucket, "objects", object] "read" = Except.ok () ∧
        Event.authorize aud sub ["buckets", bucket, "objects", object] "read" true
          ∈ (o.read_ns back bucket object (some sub)).fst) ∧
    ((st.read_ns back bucket set object (some sub) referer).snd = HandlerResult.redirect uri →
      ∃ aud, st.aud_estm bucket = Except.ok aud ∧
        st.authz aud sub ["buckets", bucket, "sets", set] "read" = Except.ok () ∧
        Event.authorize aud sub ["buckets", bucket, "sets", set] "read" true
          ∈ (st.read_ns back bucket set object (some sub) referer).fst) := by
  constructor
  · intro hred
    cases hb : o.s3 back with
    | none => simp [Object.read_ns, hb] at hred
    | some c =>
      simp only [Object.read_ns, hb, ho] at hred ⊢
      cases ha : o.aud_estm bucket with
      | error e => simp [Object.read_authz, ha] at hred
      | ok aud =>
        cases hz : o.authz aud sub ["buckets", bucket, "objects", object] "read" with
        | error e => simp [Object.read_authz, ha, hz] at hred
        | ok x =>
          exact ⟨aud, rfl, hz, by simp [Object.read_authz, ha, hz]⟩
  · intro hred
    cases hb : st.s3 back with
    | none => simp [Set.read_ns, hb] at hred
    | some c =>
      by_cases hv : valid_set_id set = true
      · cases hr : st.valid_referer bucket referer with
        | error e => simp [Set.read_ns, hb, hv, hr] at hred
        | ok a =>
          simp only [Set.read_ns, hb, hv, hr, hs] at hred ⊢
          cases ha : st.aud_estm bucket with
          | error e => simp [Set.read_authz, ha] at hred
          | ok aud =>
            cases hz : st.authz aud sub ["buckets", bucket, "sets", set] "read" with
            | error e => simp [Set.read_authz, ha, hz] at hred
            | ok x =>
              exact ⟨aud, rfl, hz, by simp [Set.read_authz, ha, hz]⟩
      · simp [Set.read_ns, hb, Bool.eq_false_iff.mpr hv] at hred

/-- Witness for C1 (amended) at a concrete allowing configuration. -/
theorem c1_witness :
    (allowObj.authz_wo = false ∧ allowSet.authz_wo = false) ∧
    (((allowObj.read_ns "main" "b" "o" (some "u")).snd
        = HandlerResult.redirect "https://presigned.example/data" →
      ∃ aud, allowObj.aud_estm "b" = Except.ok aud ∧
        allowObj.authz aud "u" ["buckets", "b", "objects", "o"] "read" = Except.ok () ∧
        Event.authorize aud "u" ["buckets", "b", "objects", "o"] "read" true
          ∈ (allowObj.read_ns "main" "b" "o" (some "u")).fst) ∧
     ((allowSet.read_ns "main" "b" "12345" "o" (some "u") none).snd
        = HandlerResult.redirect "https://presigned.example/data" →
      ∃ aud, allowSet.aud_estm "b" = Except.ok aud ∧
        allowSet.authz aud "u" ["buckets", "b", "sets", "12345"] "read" = Except.ok () ∧
        Event.authorize aud "u" ["buckets", "b", "sets", "12345"] "read" true
          ∈ (allowSet.read_ns "main" "b" "12345" "o" (some "u") none).fst)) :=
  ⟨⟨rfl, rfl⟩,
   c1_redirect_only_after_allow allowObj allowSet "main" "b" "12345" "o" "u"
     "https://presigned.example/data" none rfl rfl⟩

/-- C2: on the Sign endpoint, when the policy client returns a deny or a
transport error (both surface as `Except.error`), the response is a `403`
error whose detail is exactly the policy error string; the signed URI
built earlier never reaches the response (the result is never `signed`,
and the error detail does not contain the URI unless the policy error
string itself did). -/
theorem c2_deny_never_leaks_uri (sg : Sign) (back : String) (body : SignPayload) (sub : String)
    (referer : Option String) (c : S3Client) (zact u e : String) (aud : String)
    (hb : sg.s3 back = some c)
    (hset : body.set.map (fun s => !valid_set_id s) ≠ some true)
    (hr : sg.valid_referer body.bucket referer = Except.ok ())
    (hm : parse_action body.method = Except.ok zact)
    (hbuild : c.buildSigned body.method body.bucket (signObjectKey body) body.headers
      = Except.ok u)
    (ha : sg.aud_estm body.bucket = Except.ok aud)
    (hz : sg.authz aud sub (signZobj body) zact = Except.error e) :
    (sg.sign_ns back body sub referer).snd = HandlerResult.err (signError 403 e) ∧
    (∀ v, (sg.sign_ns back body sub referer).snd ≠ HandlerResult.signed v) ∧
    (¬ u.data <:+: e.data →
      ∀ he, (sg.sign_ns back body sub referer).snd = HandlerResult.err he →
        ¬ u.data <:+: he.detail.data) := by
  have hmain : (sg.sign_ns back body sub referer).snd = HandlerResult.err (signError 403 e) := by
    simp only [Sign.sign_ns, hb, if_neg hset, hr, hm, hbuild, ha, hz]
  refine ⟨hmain, ?_, ?_⟩
  · intro v hv
    rw [hmain] at hv
    exact HandlerResult.noConfusion hv
  · intro hinf he hhe
    rw [hmain] at hhe
    injection hhe with h2
    rw [← h2]
    exact hinf

/-- Witness for C2 at a concrete denying configuration. -/
theorem c2_witness :
    (denySign.s3 "main" = some okClient ∧
     signBody.set.map (fun s => !valid_set_id s) ≠ some true ∧
     denySign.valid_referer signBody.bucket none = Except.ok () ∧
     parse_action signBody.method = Except.ok "update" ∧
     okClient.buildSigned signBody.method signBody.bucket (signObjectKey signBody)
       signBody.headers = Except.ok "https://signed.example/data" ∧
     denySign.aud_estm signBody.bucket = Except.ok "aud1" ∧
     denySign.authz "aud1" "u" (signZobj signBody) "update" = Except.error "Access denied") ∧
    ((denySign.sign_ns "main" signBody "u" none).snd
        = HandlerResult.err (signError 403 "Access denied") ∧
     (∀ v, (denySign.sign_ns "main" signBody "u" none).snd ≠ HandlerResult.signed v) ∧
     (¬ "https://signed.example/data".data <:+: "Access denied".data →
       ∀ he, (denySign.sign_ns "main" signBody "u" none).snd = HandlerResult.err he →
         ¬ "https://signed.example/data".data <:+: he.detail.data)) :=
  ⟨⟨rfl, by decide, rfl, rfl, rfl, rfl, rfl⟩,
   c2_deny_never_leaks_uri denySign "main" signBody "u" none okClient "update"
     "https://signed.example/data" "Access denied" "aud1"
     rfl (by decide) rfl rfl rfl rfl rfl⟩

/-- C4: on each of the three resources, a request naming an unregistered
backend alias yields the `404` backend error with an empty event trace,
whatever the other request components are — so the failure precedes the
set-id check, the referer check, audience estimation, method parsing,
any signing and any policy call. -/
theorem c4_unregistered_backend_404 (o : Object) (st : Set) (sg : Sign)
    (back bucket set object : String) (maybe_sub : Option String) (sub : String)
    (referer : Option String) (body : SignPayload)
    (ho : o.s3 back = none) (hs : st.s3 back = none) (hg : sg.s3 back = none) :
    o.read_ns back bucket object maybe_sub
      = ([], HandlerResult.err (objectError 404 ("Backend '" ++ back ++ "' is not found"))) ∧
    st.read_ns back bucket set object maybe_sub referer
      = ([], HandlerResult.err (setError 404 ("Backend '" ++ back ++ "' is not found"))) ∧
    sg.sign_ns back body sub referer
      = ([], HandlerResult.err (signError 404 ("Backend '" ++ back ++ "' is not found"))) := by
  unfold Object.read_ns Set.read_ns Sign.sign_ns
  rw [ho, hs, hg]
  exact ⟨rfl, rfl, rfl⟩

/-- Witness for C4 at concrete resources with no registered backends,
with an invalid set id in the Set request to show the 404 wins. -/
theorem c4_witness :
    (noneObj.s3 "b0" = none ∧ noneSet.s3 "b0" = none ∧ noneSign.s3 "b0" = none) ∧
    (noneObj.read_ns "b0" "b" "o" none
       = ([], HandlerResult.err (objectError 404 ("Backend '" ++ "b0" ++ "' is not found"))) ∧
     noneSet.read_ns "b0" "b" "not-a-number" "o" none none
       = ([], HandlerResult.err (setError 404 ("Backend '" ++ "b0" ++ "' is not found"))) ∧
     noneSign.sign_ns "b0" signBody "u" none
       = ([], HandlerResult.err (signError 404 ("Backend '" ++ "b0" ++ "' is not found")))) :=
  ⟨⟨rfl, rfl, rfl⟩,
   c4_unregistered_backend_404 noneObj noneSet noneSign "b0" "b" "not-a-number" "o" none "u"
     none signBody rfl rfl rfl⟩

/-- C5 counterexample: a Set request with an invalid set id but an
unregistered backend yields the `404` backend error, not `403` with
detail "Invalid set id" — backend resolution runs before the set-id
check, so the set-id check is not the first step of the flow. -/
theorem c5_counterexample :
    valid_set_id "abc" = false ∧
    (noneSet.read_ns "b0" "b" "abc" "o" none none).snd
      = HandlerResult.err (setError 404 "Backend 'b0' is not found") ∧
    (noneSet.read_ns "b0" "b" "abc" "o" none none).snd
      ≠ HandlerResult.err (setError 403 "Invalid set id") := by
  decide

/-- C5 (amended): on the Set resource the set-id shape is validated
immediately after backend resolution and before every remaining step
(referer check, subject check, authorization, signing): whenever the
backend is registered and the set id is invalid, the result is `403`
with detail "Invalid set id" and no external call is made. -/
theorem c5_invalid_set_id (st : Set) (back bucket set object : String)
    (maybe_sub : Option String) (referer : Option String) (c : S3Client)
    (hb : st.s3 back = some c) (hv : valid_set_id set = false) :
    st.read_ns back bucket set object maybe_sub referer
      = ([], HandlerResult.err (setError 403 "Invalid set id")) := by
  simp only [Set.read_ns, hb, hv]
  rfl

/-- Witness for C5 (amended) at a concrete registered backend. -/
theorem c5_witness :
    (allowSet.s3 "main" = some okClient ∧ valid_set_id "abc" = false) ∧
    allowSet.read_ns "main" "b" "abc" "o" (some "u") none
      = ([], HandlerResult.err (setError 403 "Invalid set id")) :=
  ⟨⟨rfl, by decide⟩,
   c5_invalid_set_id allowSet "main" "b" "abc" "o" (some "u") none okClient rfl (by decide)⟩

/-- C6: with the bypass flag enabled and no subject present, Object and
Set reads still succeed with a `303` redirect to the presigned URL
(assuming the backend is registered, the set id is valid and the referer
check passes), and the event trace contains no policy-client call. -/
theorem c6_bypass_reads (o : Object) (st : Set) (back bucket set object : String)
    (referer : Option String) (c1 c2 : S3Client) (u1 u2 : String)
    (ho1 : o.authz_wo = true) (hb1 : o.s3 back = some c1)
    (hp1 : c1.presigned "GET" bucket object = Except.ok u1)
    (hs1 : st.authz_wo = true) (hb2 : st.s3 back = some c2)
    (hv : valid_set_id set = true)
    (hr : st.valid_referer bucket referer = Except.ok ())
    (hp2 : c2.presigned "GET" bucket (s3_object set object) = Except.ok u2) :
    o.read_ns back bucket object none
      = ([Event.presign "GET" bucket object], HandlerResult.redirect u1) ∧
    st.read_ns back bucket set object none referer
      = ([Event.presign "GET" bucket (s3_object set object)], HandlerResult.redirect u2) ∧
    ((o.read_ns back bucket object none).fst.all fun ev => !ev.isAuthorize) = true ∧
    ((st.read_ns back bucket set object none referer).fst.all fun ev => !ev.isAuthorize)
      = true := by
  have h1 : o.read_ns back bucket object none
      = ([Event.presign "GET" bucket object], HandlerResult.redirect u1) := by
    simp only [Object.read_ns, hb1, ho1, hp1]
  have h2 : st.read_ns back bucket set object none referer
      = ([Event.presign "GET" bucket (s3_object set object)], HandlerResult.redirect u2) := by
    simp only [Set.read_ns, hb2, hv, hr, hs1, hp2]
    rfl
  refine ⟨h1, h2, ?_, ?_⟩
  · rw [h1]
    rfl
  · rw [h2]
    rfl

/-- Witness for C6: bypass on, deny-all policy, no subject — the reads
still redirect and the policy client is never consulted. -/
theorem c6_witness :
    (bypassObj.authz_wo = true ∧ bypassSet.authz_wo = true ∧ valid_set_id "12345" = true) ∧
    (bypassObj.read_ns "main" "b" "o" none
       = ([Event.presign "GET" "b" "o"],
          HandlerResult.redirect "https://presigned.example/data") ∧
     bypassSet.read_ns "main" "b" "12345" "o" none none
       = ([Event.presign "GET" "b" (s3_object "12345" "o")],
          HandlerResult.redirect "https://presigned.example/data") ∧
     ((bypassObj.read_ns "main" "b" "o" none).fst.all fun ev => !ev.isAuthorize) = true ∧
     ((bypassSet.read_ns "main" "b" "12345" "o" none none).fst.all fun ev => !ev.isAuthorize)
       = true) :=
  ⟨⟨rfl, rfl, by decide⟩,
   c6_bypass_reads bypassObj bypassSet "main" "b" "12345" "o" none okClient okClient
     "https://presigned.example/data" "https://presigned.example/data"
     rfl rfl rfl rfl rfl (by decide) rfl rfl⟩

/-- C7 counterexample: with the bypass flag off and no subject, a read
naming an unregistered backend yields `404`, not the claimed `403`
"missing an access token" — the universal "always a 403" fails. -/
theorem c7_counterexample :
    noneObj.authz_wo = false ∧
    (noneObj.read_ns "b0" "b" "o" none).snd
      = HandlerResult.err (objectError 404 "Backend 'b0' is not found") ∧
    (noneObj.read_ns "b0" "b" "o" none).snd
      ≠ HandlerResult.err (objectError 403 "missing an access token") := by
  decide

/-- C7 (amended): with the bypass flag off and no subject present, the
policy client is never invoked on Object or Set reads (the event trace
is empty on every path), and whenever the earlier validations pass
(registered backend; for Set also a valid set id and a passing referer
check) the result is `403` with detail "missing an access token". -/
theorem c7_no_subject (o : Object) (st : Set) (back bucket set object : String)
    (referer : Option String)
    (ho : o.authz_wo = false) (hs : st.authz_wo = false) :
    (o.read_ns back bucket object none).fst = [] ∧
    (st.read_ns back bucket set object none referer).fst = [] ∧
    (∀ c, o.s3 back = some c →
      o.read_ns back bucket object none
        = ([], HandlerResult.err (objectError 403 "missing an access token"))) ∧
    (∀ c, st.s3 back = some c → valid_set_id set = true →
      st.valid_referer bucket referer = Except.ok () →
      st.read_ns back bucket set object none referer
        = ([], HandlerResult.err (setError 403 "missing an access token"))) := by
  refine ⟨?_, ?_, ?_, ?_⟩
  · unfold Object.read_ns
    cases hb : o.s3 back with
    | none => rfl
    | some c => rw [ho]
  · unfold Set.read_ns
    cases hb : st.s3 back with
    | none => rfl
    | some c =>
      by_cases hv : valid_set_id set
      · simp only [hv, Bool.not_true, Bool.false_eq_true, if_false]
        cases hr : st.valid_referer bucket referer with
        | error e => rfl
        | ok a => rw [hs]
      · simp only [Bool.eq_false_iff.mpr hv]
        rfl
  · intro c hb
    simp only [Object.read_ns, hb, ho]
  · intro c hb hv hr
    simp only [Set.read_ns, hb, hv, hr, hs]
    rfl

/-- Witness for C7 (amended) at a concrete registered configuration. -/
theorem c7_witness :
    (allowObj.authz_wo = false ∧ allowSet.authz_wo = false) ∧
    ((allowObj.read_ns "main" "b" "o" none).fst = [] ∧
     (allowSet.read_ns "main" "b" "12345" "o" none none).fst = [] ∧
     (∀ c, allowObj.s3 "main" = some c →
       allowObj.read_ns "main" "b" "o" none
         = ([], HandlerResult.err (objectError 403 "missing an access token"))) ∧
     (∀ c, allowSet.s3 "main" = some c → valid_set_id "12345" = true →
       allowSet.valid_referer "b" none = Except.ok () →
       allowSet.read_ns "main" "b" "12345" "o" none none
         = ([], HandlerResult.err (setError 403 "missing an access token")))) :=
  ⟨⟨rfl, rfl⟩, c7_no_subject allowObj allowSet "main" "b" "12345" "o" none rfl rfl⟩

/-- C8: on the referer-validation stage of the Set and Sign resources,
an audience-estimation failure or missing tenant settings yields a `404`
(not `403`) whose detail names the bucket. -/
theorem c8_config_gap_404 (st : Set) (sg : Sign) (back bucket set object : String)
    (maybe_sub : Option String) (sub : String) (referer : Option String)
    (body : SignPayload) (cs cg : S3Client) (e : HError) (aud : String)
    (hbs : st.s3 back = some cs) (hv : valid_set_id set = true)
    (hbg : sg.s3 back = some cg)
    (hset : body.set.map (fun s => !valid_set_id s) ≠ some true)
    (hbb : body.bucket = bucket) :
    (st.aud_estm bucket = Except.error e →
      st.read_ns back bucket set object maybe_sub referer
        = ([], HandlerResult.err (setError 404
            ("Audience estimate for bucket '" ++ bucket ++ "' not found, err = "
              ++ e.detail)))) ∧
    (st.aud_estm bucket = Except.ok aud → st.audiences_settings.lookup aud = none →
      st.read_ns back bucket set object maybe_sub referer
        = ([], HandlerResult.err (setError 404
            ("Audience settings for bucket '" ++ bucket ++ "' not found")))) ∧
    (sg.aud_estm bucket = Except.error e →
      sg.sign_ns back body sub referer
        = ([], HandlerResult.err (signError 404
            ("Audience estimate for bucket '" ++ bucket ++ "' not found, err = "
              ++ e.detail)))) ∧
    (sg.aud_estm bucket = Except.ok aud → sg.audiences_settings.lookup aud = none →
      sg.sign_ns back body sub referer
        = ([], HandlerResult.err (signError 404
            ("Audience settings for bucket '" ++ bucket ++ "' not found")))) ∧
    (∃ pre post,
      ("Audience estimate for bucket '" ++ bucket ++ "' not found, err = " ++ e.detail)
        = pre ++ (bucket ++ post)) ∧
    (∃ pre post,
      ("Audience settings for bucket '" ++ bucket ++ "' not found")
        = pre ++ (bucket ++ post)) := by
  refine ⟨?_, ?_, ?_, ?_, ?_, ?_⟩
  · intro ha
    simp only [Set.read_ns, Set.valid_referer, hbs, hv, ha]
    rfl
  · intro ha hl
    simp only [Set.read_ns, Set.valid_referer, hbs, hv, ha, hl]
    rfl
  · intro ha
    simp only [Sign.sign_ns, Sign.valid_referer, hbg, hbb, ha, if_neg hset]
  · intro ha hl
    simp only [Sign.sign_ns, Sign.valid_referer, hbg, hbb, ha, hl, if_neg hset]
  · exact ⟨"Audience estimate for bucket '", "' not found, err = " ++ e.detail, by
      rw [strAppend_assoc, strAppend_assoc]⟩
  · exact ⟨"Audience settings for bucket '", "' not found", by rw [strAppend_assoc]⟩

/-- Witness for C8 at resources whose audience estimation fails. -/
theorem c8_witness :
    (estmFailSet.s3 "main" = some okClient ∧ valid_set_id "12345" = true ∧
     estmFailSign.s3 "main" = some okClient ∧
     signBody.set.map (fun s => !valid_set_id s) ≠ some true ∧ signBody.bucket = "b") ∧
    ((estmFailSet.aud_estm "b"
        = Except.error ⟨"estm_error", "audience estimator", 404, "no rule"⟩ →
      estmFailSet.read_ns "main" "b" "12345" "o" (some "u") none
        = ([], HandlerResult.err (setError 404
            ("Audience estimate for bucket '" ++ "b" ++ "' not found, err = "
              ++ HError.detail ⟨"estm_error", "audience estimator", 404, "no rule"⟩)))) ∧
     (estmFailSet.aud_estm "b" = Except.ok "aud1" →
      estmFailSet.audiences_settings.lookup "aud1" = none →
      estmFailSet.read_ns "main" "b" "12345" "o" (some "u") none
        = ([], HandlerResult.err (setError 404
            ("Audience settings for bucket '" ++ "b" ++ "' not found")))) ∧
     (estmFailSign.aud_estm "b"
        = Except.error ⟨"estm_error", "audience estimator", 404, "no rule"⟩ →
      estmFailSign.sign_ns "main" signBody "u" none
        = ([], HandlerResult.err (signError 404
            ("Audience estimate for bucket '" ++ "b" ++ "' not found, err = "
              ++ HError.detail ⟨"estm_error", "audience estimator", 404, "no rule"⟩)))) ∧
     (estmFailSign.aud_estm "b" = Except.ok "aud1" →
      estmFailSign.audiences_settings.lookup "aud1" = none →
      estmFailSign.sign_ns "main" signBody "u" none
        = ([], HandlerResult.err (signError 404
            ("Audience settings for bucket '" ++ "b" ++ "' not found")))) ∧
     (∃ pre post,
       ("Audience estimate for bucket '" ++ "b" ++ "' not found, err = "
          ++ HError.detail ⟨"estm_error", "audience estimator", 404, "no rule"⟩)
         = pre ++ ("b" ++ post)) ∧
     (∃ pre post,
       ("Audience settings for bucket '" ++ "b" ++ "' not found") = pre ++ ("b" ++ post))) :=
  ⟨⟨rfl, by decide, rfl, by decide, rfl⟩,
   c8_config_gap_404 estmFailSet estmFailSign "main" "b" "12345" "o" (some "u") "u" none
     signBody okClient okClient ⟨"estm_error", "audience estimator", 404, "no rule"⟩ "aud1"
     rfl (by decide) rfl (by decide) rfl⟩

/-- C9: the Sign endpoint never returns its `200` success payload unless
the policy client was invoked and returned allow for the request's
audience, resource path and action; the `Sign` structure carries no
bypass field and `sign_ns` takes a mandatory (non-optional) subject. -/
theorem c9_sign_success_requires_allow (sg : Sign) (back : String) (body : SignPayload)
    (sub : String) (referer : Option String) (u : String)
    (h : (sg.sign_ns back body sub referer).snd = HandlerResult.signed u) :
    ∃ aud zact,
      sg.aud_estm body.bucket = Except.ok aud ∧
      parse_action body.method = Except.ok zact ∧
      sg.authz aud sub (signZobj body) zact = Except.ok () ∧
      Event.authorize aud sub (signZobj body) zact true
        ∈ (sg.sign_ns back body sub referer).fst := by
  cases hb : sg.s3 back with
  | none => simp [Sign.sign_ns, hb] at h
  | some c =>
    by_cases hset : body.set.map (fun s => !valid_set_id s) = some true
    · simp [Sign.sign_ns, hb, hset] at h
    · cases hr : sg.valid_referer body.bucket referer with
      | error e => simp [Sign.sign_ns, hb, hset, hr] at h
      | ok a =>
        cases hm : parse_action body.method with
        | error e => simp [Sign.sign_ns, hb, hset, hr, hm] at h
        | ok zact =>
          cases hbuild : c.buildSigned body.method body.bucket (signObjectKey body)
              body.headers with
          | error e => simp [Sign.sign_ns, hb, hset, hr, hm, hbuild] at h
          | ok uri =>
            cases ha : sg.aud_estm body.bucket with
            | error e => simp [Sign.sign_ns, hb, hset, hr, hm, hbuild, ha] at h
            | ok aud =>
              cases hz : sg.authz aud sub (signZobj body) zact with
              | error e => simp [Sign.sign_ns, hb, hset, hr, hm, hbuild, ha, hz] at h
              | ok x =>
                exact ⟨aud, zact, rfl, rfl, hz,
                  by simp [Sign.sign_ns, hb, hset, hr, hm, hbuild, ha, hz]⟩

/-- Witness for C9 at a concrete allowing configuration. -/
theorem c9_witness :
    (allowSign.sign_ns "main" signBody "u" none).snd
      = HandlerResult.signed "https://signed.example/data" ∧
    (∃ aud zact,
      allowSign.aud_estm signBody.bucket = Except.ok aud ∧
      parse_action signBody.method = Except.ok zact ∧
      allowSign.authz aud "u" (signZobj signBody) zact = Except.ok () ∧
      Event.authorize aud "u" (signZobj signBody) zact true
        ∈ (allowSign.sign_ns "main" signBody "u" none).fst) :=
  ⟨rfl, c9_sign_success_requires_allow allowSign "main" signBody "u" none
     "https://signed.example/data" rfl⟩

/-- C10: on the Set resource, the bypass flag skips only the
missing-subject check and the policy call: with bypass enabled and the
backend registered, an invalid set id still yields `403` "Invalid set
id" and a referer-stage failure still yields its own error, in both
cases before any presigning (the event trace is empty and no redirect is
produced). -/
theorem c10_bypass_checks (st : Set) (back bucket set object : String)
    (maybe_sub : Option String) (referer : Option String) (c : S3Client) (e : HError)
    (hwo : st.authz_wo = true) (hb : st.s3 back = some c) :
    (valid_set_id set = false →
      st.read_ns back bucket set object maybe_sub referer
        = ([], HandlerResult.err (setError 403 "Invalid set id"))) ∧
    (valid_set_id set = true → st.valid_referer bucket referer = Except.error e →
      st.read_ns back bucket set object maybe_sub referer
        = ([], HandlerResult.err e)) := by
  constructor
  · intro hv
    simp only [Set.read_ns, hb, hv]
    rfl
  · intro hv hr
    simp only [Set.read_ns, hb, hv, hr]
    rfl

/-- Witness for C10: bypass enabled with a restrictive referer
allow-list — a mismatching referer is still rejected with `403`. -/
theorem c10_witness :
    (refSet.authz_wo = true ∧ refSet.s3 "main" = some okClient ∧
     valid_set_id "12345" = true ∧
     refSet.valid_referer "b" (some "https://b.example")
       = Except.error (setError 403 "Invalid request")) ∧
    ((valid_set_id "12345" = false →
      refSet.read_ns "main" "b" "12345" "o" none (some "https://b.example")
        = ([], HandlerResult.err (setError 403 "Invalid set id"))) ∧
     (valid_set_id "12345" = true →
      refSet.valid_referer "b" (some "https://b.example")
        = Except.error (setError 403 "Invalid request") →
      refSet.read_ns "main" "b" "12345" "o" none (some "https://b.example")
        = ([], HandlerResult.err (setError 403 "Invalid request")))) :=
  ⟨⟨rfl, rfl, by decide, rfl⟩,
   c10_bypass_checks refSet "main" "b" "12345" "o" none (some "https://b.example") okClient
     (setError 403 "Invalid request") rfl rfl⟩

end App
